import Mathlib

/-!
Verification of a Go test-management (TMS) backend against its
natural-language specification.

The repository contains two near-duplicate backend variants:

* the "old" variant (`src/old/main.go`): httprouter, UUID-keyed schema
  (`src/unnamed/part_000`), role looked up in the `users` table from the
  token's `user_id` claim;
* the "newer" variant (first program of `src/unnamed/part_002`): gorilla/mux,
  serial-ID schema (second half of `src/old`'s file), role embedded in the
  token, `Rodik` bypass header, archiving, run-tests stub, Rodik integration.

Handlers are embedded as pure functions over explicit state (database tables
as lists of rows, the clock as an `Int` Unix-seconds parameter, outbound HTTP
calls as a returned list of request records).  JWTs are embedded symbolically:
a token string is either a claims record together with the key it was signed
with, or garbage; verification checks the key against the server secret and
the expiry against the clock, mirroring what HMAC verification plus the
jwt-go expiry check observes.
-/

/-! ## Constants from the source -/

/-- `jwtSecretKey` in src/old/main.go. -/
def oldJwtSecretKey : String := "super-secret-jwt-key-change-in-production"

/-- `bypassSecretKey` in src/old/main.go: value the `X-Secret-Key` header is
compared against. -/
def bypassSecretKey : String := "secret-bypass-key"

/-- `jwtSecret` in the newer variant (src/unnamed/part_002). -/
def newJwtSecret : String := "secret-key"

/-- `managerRole` constant. -/
def managerRole : String := "manager"

/-- `testAnalystRole` constant. -/
def testAnalystRole : String := "test-analyst"

/-- `testerRole` constant. -/
def testerRole : String := "tester"

/-- `rodikAPI` base URL in the newer variant. -/
def rodikAPI : String := "http://localhost:8080/api"

/-- Decidable equality for `Except`, used to evaluate handler results on
concrete inputs. -/
instance {ε α : Type} [DecidableEq ε] [DecidableEq α] : DecidableEq (Except ε α)
  | .ok x, .ok y =>
      if h : x = y then .isTrue (congrArg Except.ok h)
      else .isFalse (fun hc => h (Except.ok.inj hc))
  | .error x, .error y =>
      if h : x = y then .isTrue (congrArg Except.error h)
      else .isFalse (fun hc => h (Except.error.inj hc))
  | .ok _, .error _ => .isFalse (fun hc => Except.noConfusion hc)
  | .error _, .ok _ => .isFalse (fun hc => Except.noConfusion hc)

/-! ## Newer variant: JWT and the role gate (`checkRole`) -/

/-- `Claims` of the newer variant: username, role and the registered
`ExpiresAt` (Unix seconds). -/
structure Claims where
  username : String
  role : String
  expiresAt : Int
deriving DecidableEq

/-- A token string as the verifier can observe it: either a claims payload
signed with some key, or a string that is not a well-formed signed token. -/
inductive TokenStr where
  | signed (claims : Claims) (key : String)
  | garbage (s : String)
deriving DecidableEq

/-- `generateJWT` (src/unnamed/part_002 lines 156-167): 24h expiry, signed
with the server secret. -/
def generateJWT (username role : String) (now : Int) : TokenStr :=
  .signed { username := username, role := role, expiresAt := now + 24 * 3600 } newJwtSecret

/-- `verifyJWT` (src/unnamed/part_002 lines 169-180): parsing succeeds only
for a token signed with `jwtSecret` whose `exp` has not passed (jwt-go
treats a zero `ExpiresAt` as "no expiry set"). -/
def verifyJWT (now : Int) : TokenStr → Option Claims
  | .signed c key =>
      if key = newJwtSecret ∧ (c.expiresAt = 0 ∨ now ≤ c.expiresAt) then some c else none
  | .garbage _ => none

/-- Outcome of the role gate: the handler proceeds, or the gate wrote an
error status and returned false. -/
inductive GateOutcome where
  | allowed
  | denied (status : Nat)
deriving DecidableEq

/-- `checkRole` (src/unnamed/part_002 lines 182-207).
`rodikHeader` is `r.Header.Get("Rodik")`; any non-empty value short-circuits
to success.  `authHeader = none` models an absent/empty Authorization header;
`some tok` models its content after `strings.TrimPrefix "Bearer "` (the
newer variant never checks that the prefix was actually present). -/
def checkRole (now : Int) (rodikHeader : String) (authHeader : Option TokenStr)
    (role : String) : GateOutcome :=
  if rodikHeader ≠ "" then .allowed
  else
    match authHeader with
    | none => .denied 401
    | some tok =>
        match verifyJWT now tok with
        | none => .denied 401
        | some claims => if claims.role ≠ role then .denied 403 else .allowed

/-! ## Old variant: JWT, user table and `authenticateAndCheckRole` -/

/-- `Claims` of the old variant: only a user id (UUIDs are modelled as
naturals, `uuid.Nil = 0`) plus the registered claims. -/
structure OldClaims where
  userID : Nat
  expiresAt : Int
  issuedAt : Int
deriving DecidableEq

/-- Token string for the old variant. -/
inductive OldTokenStr where
  | signed (claims : OldClaims) (key : String)
  | garbage (s : String)
deriving DecidableEq

/-- Old-variant token verification (`jwt.ParseWithClaims` with `jwtKey`). -/
def oldVerifyJWT (now : Int) : OldTokenStr → Option OldClaims
  | .signed c key =>
      if key = oldJwtSecretKey ∧ (c.expiresAt = 0 ∨ now ≤ c.expiresAt) then some c else none
  | .garbage _ => none

/-- The old variant splits the Authorization header on spaces and requires
exactly `Bearer <token>`; `malformed` covers every other non-empty shape. -/
inductive OldAuthHeader where
  | missing
  | malformed (s : String)
  | bearer (tok : OldTokenStr)

/-- A row of the old variant's `users` table (src/unnamed/part_000). -/
structure OldUser where
  id : Nat
  email : String
  password : String
  role : String
deriving DecidableEq

/-- The error cases of `authenticateAndCheckRole`, in source order. -/
inductive OldAuthError where
  | missingHeader
  | badFormat
  | invalidToken
  | userNotFound
  | wrongRole
deriving DecidableEq

/-- `authenticateAndCheckRole` (src/old/main.go lines 115-156): bypass via
`X-Secret-Key`, then header shape, then token verification, then the role is
looked up in the `users` table by the token's user id and compared. -/
def authenticateAndCheckRole (users : List OldUser) (now : Int)
    (secretHeader : String) (auth : OldAuthHeader) (requiredRole : String) :
    Except OldAuthError Nat :=
  if secretHeader = bypassSecretKey then .ok 0
  else
    match auth with
    | .missing => .error .missingHeader
    | .malformed _ => .error .badFormat
    | .bearer tok =>
        match oldVerifyJWT now tok with
        | none => .error .invalidToken
        | some claims =>
            match users.find? (fun u => u.id == claims.userID) with
            | none => .error .userNotFound
            | some u =>
                if requiredRole ≠ u.role then .error .wrongRole else .ok claims.userID

/-- Every protected handler of the old variant maps any
`authenticateAndCheckRole` error to `http.StatusUnauthorized` (401); `200`
stands for "the handler proceeds". -/
def oldGateStatus (users : List OldUser) (now : Int) (secretHeader : String)
    (auth : OldAuthHeader) (requiredRole : String) : Nat :=
  match authenticateAndCheckRole users now secretHeader auth requiredRole with
  | .error _ => 401
  | .ok _ => 200

/-! ## Login handlers -/

/-- A row of the newer variant's `users` table (serial schema). -/
structure NewUser where
  id : Nat
  username : String
  password : String
  name : String
  role : String
deriving DecidableEq

/-- Decoded body of `POST /login` (newer variant). -/
structure LoginRequest where
  username : String
  password : String
deriving DecidableEq

/-- Result of the newer login handler. -/
inductive LoginResult where
  | ok (token : TokenStr) (user : NewUser)
  | unauthorized
deriving DecidableEq

/-- `loginHandler` (src/unnamed/part_002 lines 209-242): select the user by
username (the schema declares usernames UNIQUE; `find?` takes the first
row), 401 when no row or on password mismatch, otherwise a token from
`generateJWT(user.Username, user.Role)` plus the user. -/
def loginHandler (users : List NewUser) (now : Int) (req : LoginRequest) : LoginResult :=
  match users.find? (fun u => u.username == req.username) with
  | none => .unauthorized
  | some user =>
      if req.password ≠ user.password then .unauthorized
      else .ok (generateJWT user.username user.role now) user

/-- Decoded body of `POST /login` (old variant). -/
structure OldLoginRequest where
  email : String
  password : String
deriving DecidableEq

/-- Result of the old login handler: on success only a token is returned. -/
inductive OldLoginResult where
  | ok (token : OldTokenStr)
  | unauthorized
deriving DecidableEq

/-- `loginHandler` (src/old/main.go lines 158-200): select by email AND
password, 401 on no row; the issued token's claims carry only the user id,
with a 365-day expiry. -/
def oldLoginHandler (users : List OldUser) (now : Int) (req : OldLoginRequest) :
    OldLoginResult :=
  match users.find? (fun u => u.email == req.email && u.password == req.password) with
  | none => .unauthorized
  | some user =>
      .ok (.signed { userID := user.id, expiresAt := now + 365 * 24 * 3600, issuedAt := now }
        oldJwtSecretKey)

/-! ## Newer variant: projects (serial schema), archiving, frontend filters -/

/-- A row of the newer variant's `projects` table (serial schema DDL in
src/old): `status` defaults to `'active'`, `is_archived` to false,
`rodik_project_id` and `completion_date` are nullable.  Timestamps are
Unix seconds. -/
structure ProjectRow where
  id : Nat
  rodikProjectId : Option Nat
  name : String
  description : String
  responsibleName : String
  status : String
  completionDate : Option Int
  isArchived : Bool
deriving DecidableEq

/-- The decoded JSON body of `POST /project` (the Go `Project` struct): the
client may supply any of these fields. -/
structure ProjectJSON where
  id : Nat
  name : String
  description : String
  responsibleName : String
  status : String
  completionDate : Option String
  isArchived : Bool
deriving DecidableEq

/-- `2 * 7 * 24 * time.Hour` in seconds. -/
def twoWeeksSeconds : Int := 2 * 7 * 24 * 3600

/-- `createProjectHandler` (src/unnamed/part_002 lines 308-331): inserts
only name, description, responsible_name from the body, and a
completion_date computed as `time.Now().Add(2 * 7 * 24 * time.Hour)`;
`status`, `is_archived` and `rodik_project_id` take their schema defaults.
`nextId` is the serial sequence; the handler responds with the returned id. -/
def createProjectHandler (table : List ProjectRow) (nextId : Nat) (now : Int)
    (p : ProjectJSON) : List ProjectRow × Nat :=
  let completionDate := now + twoWeeksSeconds
  (table ++ [{ id := nextId
             , rodikProjectId := none
             , name := p.name
             , description := p.description
             , responsibleName := p.responsibleName
             , status := "active"
             , completionDate := some completionDate
             , isArchived := false }], nextId)

/-- `archiveProjectHandler`'s update (src/unnamed/part_002 lines 359-383):
`UPDATE projects SET is_archived = true WHERE id = $1`. -/
def archiveProject (table : List ProjectRow) (id : Nat) : List ProjectRow :=
  table.map (fun p => if p.id = id then { p with isArchived := true } else p)

/-- The frontend's active filter
(src/frontend/.../TestLaunchPageNew.tsx lines 410 and 589):
`projectsData.filter(p => !p.is_archived)`. -/
def activeProjects (table : List ProjectRow) : List ProjectRow :=
  table.filter (fun p => !p.isArchived)

/-- The frontend's archived filter (TestLaunchPageNew.tsx line 1193):
`projectsData.filter(p => p.is_archived)`. -/
def archivedProjects (table : List ProjectRow) : List ProjectRow :=
  table.filter (fun p => p.isArchived)

/-! ## UUID-schema variant: tables, cascading delete, batch upload, run -/

/-- A row of `projects` in the UUID schema (src/unnamed/part_000). -/
structure UProject where
  id : Nat
  name : String
  description : String
deriving DecidableEq

/-- A row of `entities`: `project_id` references `projects(id)`
ON DELETE CASCADE. -/
structure UEntity where
  id : Nat
  name : String
  description : String
  projectId : Nat
  jsonData : String
deriving DecidableEq

/-- A row of `test_cases`: `entity_id` and `project_id` both reference their
parent tables ON DELETE CASCADE. -/
structure UTestCase where
  id : Nat
  name : String
  description : String
  jsonData : String
  entityId : Nat
  projectId : Nat
  requirementId : String
deriving DecidableEq

/-- The UUID-schema database state. -/
structure UDB where
  projects : List UProject
  entities : List UEntity
  testCases : List UTestCase
deriving DecidableEq

/-- `DELETE FROM projects WHERE id = $1` under the UUID schema's
`ON DELETE CASCADE` declarations (src/unnamed/part_000): deleting project
`pid` removes the project, every entity whose `project_id` is `pid`, and
every test case whose `project_id` is `pid` or whose `entity_id` belongs to
one of the removed entities. -/
def deleteProjectCascade (db : UDB) (pid : Nat) : UDB :=
  { projects := db.projects.filter (fun p => p.id ≠ pid)
  , entities := db.entities.filter (fun e => e.projectId ≠ pid)
  , testCases := db.testCases.filter (fun tc =>
      tc.projectId ≠ pid ∧ ¬ db.entities.any (fun e => e.id == tc.entityId && e.projectId == pid)) }

/-- One `INSERT INTO test_cases ...` under the UUID schema: it errors on a
primary-key collision or when a referenced entity or project row does not
exist (the DDL's foreign keys); `none` models the SQL error. -/
def insertUTestCase (db : UDB) (tc : UTestCase) : Option UDB :=
  if db.testCases.any (fun row => row.id == tc.id) then none
  else if ¬ db.entities.any (fun e => e.id == tc.entityId) then none
  else if ¬ db.projects.any (fun p => p.id == tc.projectId) then none
  else some { db with testCases := db.testCases ++ [tc] }

/-- `uuid.New()` modelled as a supply of fresh numbers: `gen` is the next
fresh id (fresh ids never collide in practice; the model draws them from a
counter). -/
def uuidNew (gen : Nat) : Nat × Nat := (gen, gen + 1)

/-- The loop body of `batchUploadTestCases` run inside the transaction: each
test case gets a fresh id when its id is `uuid.Nil` (0) and is inserted by
the prepared statement; the first failing insert aborts the whole loop. -/
def batchUploadLoop (db : UDB) (gen : Nat) : List UTestCase → Option (UDB × Nat)
  | [] => some (db, gen)
  | tc :: rest =>
      let idAndGen := if tc.id = 0 then uuidNew gen else (tc.id, gen)
      match insertUTestCase db { tc with id := idAndGen.1 } with
      | none => none
      | some db2 => batchUploadLoop db2 idAndGen.2 rest

/-- Outcome of the old variant's batch upload: the published database state,
the uuid counter and the HTTP status. -/
structure OldBatchOutcome where
  db : UDB
  gen : Nat
  status : Nat
deriving DecidableEq

/-- `batchUploadTestCases` (src/old/main.go lines 265-313): the inserts run
inside `db.Begin()` with `defer tx.Rollback()`; only `tx.Commit()` publishes
the new rows, so a failure on any insert answers 500 and leaves the
database exactly as it was. -/
def batchUploadTestCases (db : UDB) (gen : Nat) (tcs : List UTestCase) :
    OldBatchOutcome :=
  match batchUploadLoop db gen tcs with
  | none => { db := db, gen := gen, status := 500 }
  | some (db2, gen2) => { db := db2, gen := gen2, status := 200 }

/-- One element of the old run handler's response. -/
structure OldRunResult where
  testCaseId : Nat
  status : String
  runTime : Int
deriving DecidableEq

/-- The status assignment of `runTestCases` (src/old/main.go lines 353-356):
`"passed"` unless the current Unix timestamp is even. -/
def oldRunStatus (now : Int) : String :=
  if now % 2 = 0 then "failed" else "passed"

/-- `runTestCases` (src/old/main.go lines 315-370): 400 on an empty id list;
otherwise the rows of `test_cases` whose id is among the requested ids each
get the timestamp-parity status (`time.Now()` is sampled per iteration; the
model fixes one instant `now` for the request).  No report row exists in
this variant and `sendNotification` only logs. -/
def oldRunTestCases (db : UDB) (now : Int) (ids : List Nat) :
    Except Nat (List OldRunResult) :=
  if ids.isEmpty then .error 400
  else .ok ((db.testCases.filter (fun tc => ids.contains tc.id)).map
    (fun tc => { testCaseId := tc.id, status := oldRunStatus now, runTime := now }))

/-! ## Newer variant: batch test-case creation (`createTestCasesHandler`) -/

/-- A row of the newer variant's `test_cases` table (serial schema):
`status` defaults to `'not_run'`. -/
structure NTestCaseRow where
  id : Nat
  projectId : Nat
  name : String
  description : String
  status : String
  data : String
deriving DecidableEq

/-- A decoded element of the `POST /test-cases` body (the Go `TestCase`
struct). -/
structure TestCaseJSON where
  id : Nat
  projectId : Nat
  name : String
  description : String
  status : String
  data : String
deriving DecidableEq

/-- The INSERT statement of `createTestCasesHandler`, verbatim from
src/unnamed/part_002 line 577.  Note the missing comma between
`description` and `data` in the column list. -/
def newTestCasesInsertSQL : String :=
  "INSERT INTO test_cases (project_id, name, description data) VALUES ($1, $2, $3, $4) RETURNING id"

/-- The comma-separated items of that statement's column list, as written in
the source: the missing comma makes the third item the two words
`description data`. -/
def newTestCasesInsertColumns : List String :=
  ["project_id", "name", "description data"]

/-- The number of `$n` placeholders in the statement's VALUES list. -/
def newTestCasesInsertValuesCount : Nat := 4

/-- A single bare SQL column name: non-empty and without spaces. -/
def isSingleColumnName (s : String) : Bool :=
  s ≠ "" && s.toList.all (fun c => c ≠ ' ')

/-- The database accepts the INSERT only if every item of the column list is
one column name and the column count matches the placeholder count.  For
`createTestCasesHandler`'s statement both checks fail (`description data`
is not a column name, and 3 columns face 4 placeholders), so every
execution of the statement returns an SQL error. -/
def insertStatementOk : Bool :=
  newTestCasesInsertColumns.all isSingleColumnName &&
    newTestCasesInsertColumns.length == newTestCasesInsertValuesCount

/-- Result of `createTestCasesHandler`: final table, next serial id, HTTP
status, and the response ids (`none` when the handler answered with
`http.Error` instead of the id list). -/
structure NewBatchOutcome where
  table : List NTestCaseRow
  nextId : Nat
  status : Nat
  ids : Option (List Nat)
deriving DecidableEq

/-- The per-element loop of `createTestCasesHandler`: empty names are
replaced by the description (with the description prefixed accordingly),
then the INSERT runs directly on the connection - there is no transaction,
so rows inserted before a failure would stay.  Because the statement is
malformed, every execution errors and the handler answers 500 keeping
whatever was inserted so far (nothing). -/
def createTestCasesLoop (projectId : Nat) (table : List NTestCaseRow) (nextId : Nat)
    (ids : List Nat) : List TestCaseJSON → NewBatchOutcome
  | [] => { table := table, nextId := nextId, status := 200, ids := some ids }
  | tc :: rest =>
      let nameDesc :=
        if tc.name = "" then (tc.description, "Description: " ++ tc.description)
        else (tc.name, tc.description)
      if insertStatementOk then
        let row : NTestCaseRow :=
          { id := nextId, projectId := projectId, name := nameDesc.1
          , description := nameDesc.2, status := "not_run", data := tc.data }
        createTestCasesLoop projectId (table ++ [row]) (nextId + 1) (ids ++ [nextId]) rest
      else { table := table, nextId := nextId, status := 500, ids := none }

/-- `createTestCasesHandler` (src/unnamed/part_002 lines 544-589). -/
def createTestCasesHandler (table : List NTestCaseRow) (nextId : Nat)
    (projectId : Nat) (tcs : List TestCaseJSON) : NewBatchOutcome :=
  createTestCasesLoop projectId table nextId [] tcs

/-! ## Newer variant: `runTestsHandler` and the Rodik PATCH -/

/-- A row of `test_reports` as inserted by the handler (`test_plan_id` and
`test_suite_id` come straight from the request body). -/
structure TestReportRow where
  id : Nat
  projectId : Nat
  testPlanId : Nat
  testSuiteId : Nat
  passedPercent : Nat
  duration : Nat
deriving DecidableEq

/-- Decoded body of `POST /run-tests`. -/
structure RunRequest where
  projectId : Nat
  testPlanId : Nat
  testSuiteId : Nat
deriving DecidableEq

/-- One element of the body of the outbound PATCH (`RodikTestResult`). -/
structure RodikTestResult where
  id : String
  status : String
deriving DecidableEq

/-- An outbound HTTP request issued by the handler. -/
structure PatchRequest where
  method : String
  url : String
  authHeader : String
  body : List RodikTestResult
deriving DecidableEq

/-- The server state `runTestsHandler` touches: the `test_reports` table,
its serial sequence, and the `test_case_suites` join table as
(test_case_id, test_suite_id) pairs. -/
structure RunState where
  testReports : List TestReportRow
  nextReportId : Nat
  testCaseSuites : List (Nat × Nat)
deriving DecidableEq

/-- What a run-tests request produces: the new state, the HTTP status and
the outbound requests that were sent. -/
structure RunOutcome where
  state : RunState
  httpStatus : Nat
  outbound : List PatchRequest
deriving DecidableEq

/-- `runTestsHandler` (src/unnamed/part_002 lines 1154-1222): a report row
with hardcoded `passed_percent = 100, duration = 30` is always inserted;
then, when the integration flag is set, the handler returns immediately,
and only when the flag is EMPTY does it collect the suite's test cases from
`test_case_suites`, mark every one `"PASSED"`, and PATCH them to
`rodikAPI + "/tests"` with the static `Bearer tms` token.  (The model takes
the database-success path; any SQL or HTTP transport error degrades to 500
in the source.) -/
def runTestsHandler (integrationFlag : String) (st : RunState) (data : RunRequest) :
    RunOutcome :=
  let report : TestReportRow :=
    { id := st.nextReportId, projectId := data.projectId
    , testPlanId := data.testPlanId, testSuiteId := data.testSuiteId
    , passedPercent := 100, duration := 30 }
  let st2 : RunState :=
    { st with testReports := st.testReports ++ [report]
            , nextReportId := st.nextReportId + 1 }
  if integrationFlag ≠ "" then
    { state := st2, httpStatus := 200, outbound := [] }
  else
    let caseIds := (st.testCaseSuites.filter (fun pr => pr.2 == data.testSuiteId)).map (·.1)
    let res := caseIds.map (fun cid => { id := toString cid, status := "PASSED" : RodikTestResult })
    { state := st2, httpStatus := 200
    , outbound := [{ method := "PATCH", url := rodikAPI ++ "/tests"
                   , authHeader := "Bearer tms", body := res }] }

/-! ## Fixtures for witnesses and counterexamples -/

/-- A project row used by the C7 witness. -/
def prA : ProjectRow :=
  { id := 1, rodikProjectId := none, name := "P1", description := "d1"
  , responsibleName := "Alice", status := "active", completionDate := none
  , isArchived := false }

/-- A second project row used by the C7 witness. -/
def prB : ProjectRow :=
  { id := 2, rodikProjectId := none, name := "P2", description := "d2"
  , responsibleName := "Bob", status := "active", completionDate := none
  , isArchived := false }

/-! ## Claim C3 -/

/-- Claim C3: a request carrying the configured bypass header/value skips
token verification and the role comparison entirely — the newer variant's
`checkRole` succeeds on any non-empty `Rodik` header and the old variant's
`authenticateAndCheckRole` succeeds on `X-Secret-Key = bypassSecretKey`,
both regardless of the Authorization header's presence or contents. -/
theorem C3_bypass_skips_verification
    (now : Int) (rodikHeader : String) (authHeader : Option TokenStr) (role : String)
    (h : rodikHeader ≠ "")
    (users : List OldUser) (oldNow : Int) (oldAuth : OldAuthHeader) (oldRole : String) :
    checkRole now rodikHeader authHeader role = .allowed ∧
    authenticateAndCheckRole users oldNow bypassSecretKey oldAuth oldRole = .ok 0 := by
  constructor
  · simp [checkRole, h]
  · simp [authenticateAndCheckRole]

/-- Witness for C3 at concrete inputs: the bypass headers make both gates
pass even though no valid token is presented. -/
theorem C3_bypass_skips_verification_witness :
    ("1" : String) ≠ "" ∧
    checkRole 0 "1" (some (.garbage "nonsense")) managerRole = .allowed ∧
    authenticateAndCheckRole [] 0 bypassSecretKey (.malformed "nonsense") testerRole = .ok 0 := by
  refine ⟨by decide, ?_, ?_⟩
  · exact (C3_bypass_skips_verification 0 "1" (some (.garbage "nonsense")) managerRole
      (by decide) [] 0 (.malformed "nonsense") testerRole).1
  · exact (C3_bypass_skips_verification 0 "1" (some (.garbage "nonsense")) managerRole
      (by decide) [] 0 (.malformed "nonsense") testerRole).2

/-! ## Claim C9 -/

/-- Claim C9: the newer variant's bypass tests only that the `Rodik` header
is non-empty — for every required role and every request, any non-empty
header value passes `checkRole` without any token verification. -/
theorem C9_rodik_any_nonempty_value
    (now : Int) (v : String) (authHeader : Option TokenStr) (role : String)
    (h : v ≠ "") :
    checkRole now v authHeader role = .allowed := by
  simp [checkRole, h]

/-- Witness for C9: the arbitrary value "x" (equal to no secret configured
anywhere in the program) passes the gate with no token at all. -/
theorem C9_rodik_any_nonempty_value_witness :
    ("x" : String) ≠ "" ∧ ("x" : String) ≠ bypassSecretKey ∧
    checkRole 0 "x" none managerRole = .allowed := by
  refine ⟨by decide, by decide, ?_⟩
  exact C9_rodik_any_nonempty_value 0 "x" none managerRole (by decide)

/-! ## Claim C10 -/

/-- Claim C10: the newer variant's create-project stores a completion date of
exactly 14 days after the moment of creation; only name, description and
responsible_name are taken from the request body, and the request's own
completion_date field has no influence on the result. -/
theorem C10_create_project_fixed_completion
    (table : List ProjectRow) (nextId : Nat) (now : Int) (p : ProjectJSON) :
    createProjectHandler table nextId now p =
      (table ++ [{ id := nextId, rodikProjectId := none, name := p.name
                 , description := p.description, responsibleName := p.responsibleName
                 , status := "active", completionDate := some (now + twoWeeksSeconds)
                 , isArchived := false }], nextId) ∧
    twoWeeksSeconds = 14 * 24 * 3600 ∧
    (∀ cd1 cd2 : Option String,
      createProjectHandler table nextId now { p with completionDate := cd1 } =
        createProjectHandler table nextId now { p with completionDate := cd2 }) := by
  exact ⟨rfl, by decide, fun cd1 cd2 => rfl⟩

/-! ## Claim C7 -/

/-- Claim C7: archiving a project sets `is_archived = true` on exactly the
row with the given id, leaving every other field of that row and every other
row unchanged (the result is row-for-row the input with only that flag
flipped); the archived row then appears under the frontend's
archived-projects filter and no row with that id appears under the
active-projects filter. -/
theorem C7_archive_project (table : List ProjectRow) (pid : Nat) :
    (archiveProject table pid).length = table.length ∧
    (∀ p ∈ table, p.id ≠ pid → p ∈ archiveProject table pid) ∧
    (∀ p ∈ table, p.id = pid → { p with isArchived := true } ∈ archiveProject table pid) ∧
    (∀ q ∈ archiveProject table pid,
        ∃ p, p ∈ table ∧
          ((p.id ≠ pid ∧ q = p) ∨ (p.id = pid ∧ q = { p with isArchived := true }))) ∧
    (∀ q ∈ activeProjects (archiveProject table pid), q.id ≠ pid) ∧
    (∀ p ∈ table, p.id = pid →
        { p with isArchived := true } ∈ archivedProjects (archiveProject table pid)) := by
  refine ⟨by simp [archiveProject], ?_, ?_, ?_, ?_, ?_⟩
  · intro p hp h
    simp only [archiveProject, List.mem_map]
    exact ⟨p, hp, by simp [h]⟩
  · intro p hp h
    simp only [archiveProject, List.mem_map]
    exact ⟨p, hp, by simp [h]⟩
  · intro q hq
    simp only [archiveProject, List.mem_map] at hq
    obtain ⟨p, hp, hf⟩ := hq
    by_cases h : p.id = pid
    · exact ⟨p, hp, Or.inr ⟨h, by rw [← hf]; simp [h]⟩⟩
    · exact ⟨p, hp, Or.inl ⟨h, by rw [← hf]; simp [h]⟩⟩
  · intro q hq
    simp only [activeProjects, List.mem_filter] at hq
    obtain ⟨hqm, hqa⟩ := hq
    simp only [archiveProject, List.mem_map] at hqm
    obtain ⟨p, hp, hf⟩ := hqm
    by_cases h : p.id = pid
    · exfalso
      rw [← hf] at hqa
      simp [h] at hqa
    · rw [← hf]
      simp [h]
  · intro p hp h
    simp only [archivedProjects, List.mem_filter]
    refine ⟨?_, by simp⟩
    simp only [archiveProject, List.mem_map]
    exact ⟨p, hp, by simp [h]⟩

/-- Witness for C7 at a concrete two-project table: archiving project 1
leaves project 2 untouched, puts project 1 (with the flag set) under the
archived filter, and project 1 is absent from the active filter. -/
theorem C7_archive_project_witness :
    prB ∈ archiveProject [prA, prB] 1 ∧
    { prA with isArchived := true } ∈ archivedProjects (archiveProject [prA, prB] 1) ∧
    { prA with isArchived := true } ∈ archiveProject [prA, prB] 1 := by
  refine ⟨?_, ?_, ?_⟩
  · exact (C7_archive_project [prA, prB] 1).2.1 prB (by simp) (by decide)
  · exact (C7_archive_project [prA, prB] 1).2.2.2.2.2 prA (by simp) (by decide)
  · exact (C7_archive_project [prA, prB] 1).2.2.1 prA (by simp) (by decide)

/-! ## Claim C8 -/

/-- Claim C8: under the UUID schema's `ON DELETE CASCADE` declarations,
deleting a project removes every entity and test case whose `project_id`
references it, so afterwards no stored project, entity or test case
references the deleted id; rows not tied to the deleted project (directly
or through a cascaded entity) survive. -/
theorem C8_delete_project_cascades (db : UDB) (pid : Nat) :
    (∀ p ∈ (deleteProjectCascade db pid).projects, p.id ≠ pid) ∧
    (∀ e ∈ (deleteProjectCascade db pid).entities, e.projectId ≠ pid) ∧
    (∀ tc ∈ (deleteProjectCascade db pid).testCases, tc.projectId ≠ pid) ∧
    (∀ e ∈ db.entities, e.projectId ≠ pid → e ∈ (deleteProjectCascade db pid).entities) ∧
    (∀ tc ∈ db.testCases, tc.projectId ≠ pid →
        (∀ e ∈ db.entities, e.id = tc.entityId → e.projectId ≠ pid) →
        tc ∈ (deleteProjectCascade db pid).testCases) := by
  refine ⟨?_, ?_, ?_, ?_, ?_⟩
  · intro p hp
    simp only [deleteProjectCascade, List.mem_filter, decide_eq_true_eq] at hp
    exact hp.2
  · intro e he
    simp only [deleteProjectCascade, List.mem_filter, decide_eq_true_eq] at he
    exact he.2
  · intro tc htc
    simp only [deleteProjectCascade, List.mem_filter, decide_eq_true_eq] at htc
    exact htc.2.1
  · intro e he h
    simp only [deleteProjectCascade, List.mem_filter, decide_eq_true_eq]
    exact ⟨he, h⟩
  · intro tc htc h1 h2
    simp only [deleteProjectCascade, List.mem_filter, decide_eq_true_eq]
    refine ⟨htc, h1, ?_⟩
    simp only [List.any_eq_true, Bool.and_eq_true, beq_iff_eq, not_exists]
    rintro e ⟨hmem, hid, hproj⟩
    exact h2 e hmem hid hproj

/-- Witness for C8 at a concrete database: deleting project 1 removes its
entity and test case, keeps the unrelated project 2 rows, and nothing left
references project 1. -/
theorem C8_delete_project_cascades_witness :
    (∀ tc ∈ (deleteProjectCascade
        { projects := [{ id := 1, name := "P1", description := "" },
                       { id := 2, name := "P2", description := "" }]
        , entities := [{ id := 10, name := "E1", description := "", projectId := 1, jsonData := "" },
                       { id := 20, name := "E2", description := "", projectId := 2, jsonData := "" }]
        , testCases := [{ id := 100, name := "T1", description := "", jsonData := ""
                        , entityId := 10, projectId := 1, requirementId := "r1" },
                        { id := 200, name := "T2", description := "", jsonData := ""
                        , entityId := 20, projectId := 2, requirementId := "r2" }] } 1).testCases,
      tc.projectId ≠ 1) ∧
    ({ id := 200, name := "T2", description := "", jsonData := ""
     , entityId := 20, projectId := 2, requirementId := "r2" : UTestCase } ∈
      (deleteProjectCascade
        { projects := [{ id := 1, name := "P1", description := "" },
                       { id := 2, name := "P2", description := "" }]
        , entities := [{ id := 10, name := "E1", description := "", projectId := 1, jsonData := "" },
                       { id := 20, name := "E2", description := "", projectId := 2, jsonData := "" }]
        , testCases := [{ id := 100, name := "T1", description := "", jsonData := ""
                        , entityId := 10, projectId := 1, requirementId := "r1" },
                        { id := 200, name := "T2", description := "", jsonData := ""
                        , entityId := 20, projectId := 2, requirementId := "r2" }] } 1).testCases) := by
  constructor
  · exact (C8_delete_project_cascades _ 1).2.2.1
  · exact (C8_delete_project_cascades _ 1).2.2.2.2 _ (by simp) (by decide)
      (by intro e he hid; revert he; simp; rintro (rfl | rfl) <;> simp_all)

/-! ## Claim C2 -/

/-- Fixture for the C2 counterexample: a stored tester. -/
def c2User : OldUser := { id := 1, email := "t@example.com", password := "pw", role := "tester" }

/-- Fixture for the C2 counterexample: a token for user 1, correctly signed
with the old variant's server key and unexpired at time 0. -/
def c2Token : OldTokenStr := .signed { userID := 1, expiresAt := 1000, issuedAt := 0 } oldJwtSecretKey

/-- Counterexample to C2: in the old variant a request without the bypass
header, whose bearer token verifies but whose user's role ("tester",
resolved through the token's user-id claim) differs from the endpoint's
required role ("manager"), is answered with 401, not the claimed 403 —
every old-variant handler maps every `authenticateAndCheckRole` error,
the wrong-role case included, to `http.StatusUnauthorized`. -/
theorem C2_old_wrong_role_is_401 :
    oldVerifyJWT 0 c2Token = some { userID := 1, expiresAt := 1000, issuedAt := 0 } ∧
    authenticateAndCheckRole [c2User] 0 "" (.bearer c2Token) managerRole = .error .wrongRole ∧
    oldGateStatus [c2User] 0 "" (.bearer c2Token) managerRole = 401 ∧
    (401 : Nat) ≠ 403 := by
  refine ⟨by decide, by decide, by decide, by decide⟩

/-- Claim C2 as amended: in the newer variant, without the bypass header, a
missing Authorization header or an unverifiable token yields 401 and a
verifying token whose embedded role differs from the required role yields
403 (a matching role passes); in the older variant the role is resolved
from the users table via the token's user-id claim and every failure —
the wrong-role case included — yields 401. -/
theorem C2_role_gate_statuses
    (now : Int) (tok : TokenStr) (claims : Claims) (role : String)
    (users : List OldUser) (oldNow : Int) (secretHeader : String)
    (oldAuth : OldAuthHeader) (oldRole : String) :
    (checkRole now "" none role = .denied 401) ∧
    (verifyJWT now tok = none → checkRole now "" (some tok) role = .denied 401) ∧
    (verifyJWT now tok = some claims → claims.role ≠ role →
        checkRole now "" (some tok) role = .denied 403) ∧
    (verifyJWT now tok = some claims → claims.role = role →
        checkRole now "" (some tok) role = .allowed) ∧
    (∀ e, authenticateAndCheckRole users oldNow secretHeader oldAuth oldRole = .error e →
        oldGateStatus users oldNow secretHeader oldAuth oldRole = 401) := by
  refine ⟨by simp [checkRole], ?_, ?_, ?_, ?_⟩
  · intro h
    simp [checkRole, h]
  · intro h hr
    simp [checkRole, h, hr]
  · intro h hr
    simp [checkRole, h, hr]
  · intro e he
    simp [oldGateStatus, he]

/-- Witness for C2 (amended) at concrete inputs: a token with role "tester"
against a manager-gated endpoint gets 403, no token gets 401, a token signed
with the wrong key gets 401, and the old variant's wrong-role request gets
401. -/
theorem C2_role_gate_statuses_witness :
    (checkRole 0 "" none managerRole = .denied 401) ∧
    (checkRole 0 ""
        (some (.signed { username := "u", role := "tester", expiresAt := 100 } newJwtSecret))
        managerRole = .denied 403) ∧
    (checkRole 0 ""
        (some (.signed { username := "u", role := "manager", expiresAt := 100 } "wrong-key"))
        managerRole = .denied 401) ∧
    (oldGateStatus [{ id := 1, email := "e", password := "p", role := "tester" }] 0 ""
        (.bearer (.signed { userID := 1, expiresAt := 100, issuedAt := 0 } oldJwtSecretKey))
        managerRole = 401) := by
  refine ⟨?_, ?_, ?_, ?_⟩
  · exact (C2_role_gate_statuses 0 (.garbage "") { username := "", role := "", expiresAt := 0 }
      managerRole [] 0 "" .missing managerRole).1
  · exact (C2_role_gate_statuses 0
      (.signed { username := "u", role := "tester", expiresAt := 100 } newJwtSecret)
      { username := "u", role := "tester", expiresAt := 100 }
      managerRole [] 0 "" .missing managerRole).2.2.1 (by decide) (by decide)
  · exact (C2_role_gate_statuses 0
      (.signed { username := "u", role := "manager", expiresAt := 100 } "wrong-key")
      { username := "u", role := "manager", expiresAt := 100 }
      managerRole [] 0 "" .missing managerRole).2.1 (by decide)
  · exact (C2_role_gate_statuses 0 (.garbage "") { username := "", role := "", expiresAt := 0 }
      managerRole [{ id := 1, email := "e", password := "p", role := "tester" }] 0 ""
      (.bearer (.signed { userID := 1, expiresAt := 100, issuedAt := 0 } oldJwtSecretKey))
      managerRole).2.2.2.2 .wrongRole (by decide)

/-! ## Claim C6 -/

/-- Fixture for the C6 counterexample: a stored manager. -/
def c6UserManager : OldUser := { id := 7, email := "a@b.c", password := "pw", role := "manager" }

/-- Fixture for the C6 counterexample: the same user record with role
"tester" instead. -/
def c6UserTester : OldUser := { id := 7, email := "a@b.c", password := "pw", role := "tester" }

/-- Fixture for the C6 counterexample: a login request matching both stored
users above. -/
def c6Req : OldLoginRequest := { email := "a@b.c", password := "pw" }

/-- Counterexample to C6: the old variant's login issues byte-for-byte the
same token whether the matched user's role is "manager" or "tester" — the
token's claims carry only the user id, so the response JWT cannot embed the
user's role as the claim states. -/
theorem C6_old_token_embeds_no_role :
    oldLoginHandler [c6UserManager] 0 c6Req = oldLoginHandler [c6UserTester] 0 c6Req ∧
    c6UserManager.role ≠ c6UserTester.role ∧
    oldLoginHandler [c6UserManager] 0 c6Req =
      .ok (.signed { userID := 7, expiresAt := 365 * 24 * 3600, issuedAt := 0 } oldJwtSecretKey) := by
  refine ⟨by decide, by decide, by decide⟩

/-- Claim C6 as amended: in the newer variant, credentials matching a stored
user yield a JWT signed with the server secret embedding that user's
username and role, and credentials matching no stored user yield 401; in
the older variant, non-matching credentials likewise yield 401, but the
token issued on success embeds only the user's id (the role is resolved
from the users table on each subsequent request, not embedded). -/
theorem C6_login_per_variant
    (users : List NewUser) (now : Int) (req : LoginRequest) (u : NewUser)
    (ousers : List OldUser) (onow : Int) (oreq : OldLoginRequest) (ou : OldUser) :
    (users.find? (fun x => x.username == req.username) = some u →
        req.password = u.password →
        loginHandler users now req =
          .ok (.signed { username := u.username, role := u.role, expiresAt := now + 24 * 3600 }
            newJwtSecret) u) ∧
    ((∀ x ∈ users, ¬(x.username = req.username ∧ x.password = req.password)) →
        loginHandler users now req = .unauthorized) ∧
    ((∀ x ∈ ousers, ¬(x.email = oreq.email ∧ x.password = oreq.password)) →
        oldLoginHandler ousers onow oreq = .unauthorized) ∧
    (ousers.find? (fun x => x.email == oreq.email && x.password == oreq.password) = some ou →
        oldLoginHandler ousers onow oreq =
          .ok (.signed { userID := ou.id, expiresAt := onow + 365 * 24 * 3600, issuedAt := onow }
            oldJwtSecretKey)) := by
  refine ⟨?_, ?_, ?_, ?_⟩
  · intro hfind hpw
    simp [loginHandler, hfind, hpw, generateJWT]
  · intro h
    cases hfind : users.find? (fun x => x.username == req.username) with
    | none => simp [loginHandler, hfind]
    | some x =>
        have hx : x ∈ users := List.mem_of_find?_eq_some hfind
        have hux := List.find?_some hfind
        have huname : x.username = req.username := by simpa using hux
        have hpw : x.password ≠ req.password := fun hp => h x hx ⟨huname, hp⟩
        have hpw2 : ¬req.password = x.password := fun hp => hpw hp.symm
        simp [loginHandler, hfind, hpw2]
  · intro h
    cases hfind : ousers.find? (fun x => x.email == oreq.email && x.password == oreq.password) with
    | none => simp [oldLoginHandler, hfind]
    | some x =>
        have hx : x ∈ ousers := List.mem_of_find?_eq_some hfind
        have hux := List.find?_some hfind
        simp only [Bool.and_eq_true, beq_iff_eq] at hux
        exact absurd hux (h x hx)
  · intro hfind
    simp [oldLoginHandler, hfind]

/-- Witness for C6 (amended) at concrete inputs: a matching newer-variant
login returns the role-embedding token, a wrong password returns 401, the
old variant rejects unknown credentials with 401 and issues the
id-only token on a match. -/
theorem C6_login_per_variant_witness :
    (loginHandler [{ id := 1, username := "admin", password := "admin123"
                   , name := "Admin User", role := "manager" }] 0
        { username := "admin", password := "admin123" } =
      .ok (.signed { username := "admin", role := "manager", expiresAt := 24 * 3600 } newJwtSecret)
        { id := 1, username := "admin", password := "admin123"
        , name := "Admin User", role := "manager" }) ∧
    (loginHandler [{ id := 1, username := "admin", password := "admin123"
                   , name := "Admin User", role := "manager" }] 0
        { username := "admin", password := "wrong" } = .unauthorized) ∧
    (oldLoginHandler [{ id := 7, email := "a@b.c", password := "pw", role := "manager" }] 0
        { email := "a@b.c", password := "wrong" } = .unauthorized) ∧
    (oldLoginHandler [{ id := 7, email := "a@b.c", password := "pw", role := "manager" }] 0
        { email := "a@b.c", password := "pw" } =
      .ok (.signed { userID := 7, expiresAt := 365 * 24 * 3600, issuedAt := 0 } oldJwtSecretKey)) := by
  refine ⟨?_, ?_, ?_, ?_⟩
  · have h := (C6_login_per_variant
      [{ id := 1, username := "admin", password := "admin123"
       , name := "Admin User", role := "manager" }] 0
      { username := "admin", password := "admin123" }
      { id := 1, username := "admin", password := "admin123"
      , name := "Admin User", role := "manager" }
      [] 0 { email := "", password := "" }
      { id := 0, email := "", password := "", role := "" }).1 (by decide) (by decide)
    simpa using h
  · exact (C6_login_per_variant
      [{ id := 1, username := "admin", password := "admin123"
       , name := "Admin User", role := "manager" }] 0
      { username := "admin", password := "wrong" }
      { id := 0, username := "", password := "", name := "", role := "" }
      [] 0 { email := "", password := "" }
      { id := 0, email := "", password := "", role := "" }).2.1 (by decide)
  · exact (C6_login_per_variant [] 0 { username := "", password := "" }
      { id := 0, username := "", password := "", name := "", role := "" }
      [{ id := 7, email := "a@b.c", password := "pw", role := "manager" }] 0
      { email := "a@b.c", password := "wrong" }
      { id := 0, email := "", password := "", role := "" }).2.2.1 (by decide)
  · exact (C6_login_per_variant [] 0 { username := "", password := "" }
      { id := 0, username := "", password := "", name := "", role := "" }
      [{ id := 7, email := "a@b.c", password := "pw", role := "manager" }] 0
      { email := "a@b.c", password := "pw" }
      { id := 7, email := "a@b.c", password := "pw", role := "manager" }).2.2.2 (by decide)

/-! ## Claim C1 -/

/-- Fixture for C1: a decoded batch element named "A". -/
def c1TcA : TestCaseJSON :=
  { id := 0, projectId := 0, name := "A", description := "da", status := "", data := "d1" }

/-- Fixture for C1: a decoded batch element named "B". -/
def c1TcB : TestCaseJSON :=
  { id := 0, projectId := 0, name := "B", description := "db", status := "", data := "d2" }

/-- Fixture for C1: a UUID-schema database with one project and one entity. -/
def c1UDB : UDB :=
  { projects := [{ id := 1, name := "P", description := "" }]
  , entities := [{ id := 10, name := "E", description := "", projectId := 1, jsonData := "" }]
  , testCases := [] }

/-- Fixture for C1: a test case whose foreign keys resolve. -/
def c1Good : UTestCase :=
  { id := 100, name := "t1", description := "", jsonData := ""
  , entityId := 10, projectId := 1, requirementId := "r" }

/-- Fixture for C1: a second resolvable test case. -/
def c1Good2 : UTestCase :=
  { id := 101, name := "t2", description := "", jsonData := ""
  , entityId := 10, projectId := 1, requirementId := "r" }

/-- Fixture for C1: a test case whose `entity_id` references no entity, so
its insert violates the schema's foreign key and fails. -/
def c1BadFK : UTestCase :=
  { id := 102, name := "t3", description := "", jsonData := ""
  , entityId := 99, projectId := 1, requirementId := "r" }

/-- Claim C1, evaluated on the code: the newer variant's batch endpoint
(`createTestCasesHandler`) runs its inserts on the bare connection with no
transaction, and its INSERT statement is malformed (the column list reads
`description data` — a missing comma — and pairs 3 columns with 4
placeholders), so the first insert of any non-empty batch errors: the
handler always answers 500 with nothing inserted and no ids, never the
claimed all-N-in-one-transaction outcome.  The old variant's
`batchUploadTestCases` does behave as claimed: a batch whose second insert
fails publishes nothing, and a good batch publishes all rows on commit. -/
theorem C1_new_batch_insert_always_fails :
    insertStatementOk = false ∧
    createTestCasesHandler [] 1 7 [c1TcA, c1TcB] =
      { table := [], nextId := 1, status := 500, ids := none } ∧
    batchUploadTestCases c1UDB 200 [c1Good, c1BadFK] =
      { db := c1UDB, gen := 200, status := 500 } ∧
    batchUploadTestCases c1UDB 200 [c1Good, c1Good2] =
      { db := { c1UDB with testCases := [c1Good, c1Good2] }, gen := 200, status := 200 } := by
  refine ⟨by decide, by decide, by decide, by decide⟩

/-! ## Claim C4 -/

/-- Fixture for C4: server state whose `test_case_suites` table puts test
case 5 in suite 3. -/
def c4State : RunState := { testReports := [], nextReportId := 1, testCaseSuites := [(5, 3)] }

/-- Fixture for C4: the decoded run-tests body targeting suite 3. -/
def c4Req : RunRequest := { projectId := 2, testPlanId := 4, testSuiteId := 3 }

/-- Claim C4, evaluated on the code: with the integration flag set, the
run-tests handler inserts the report row and then returns immediately — it
sends NO outbound PATCH at all; the PATCH marking every case of the suite
"PASSED" is sent precisely when the integration flag is empty.  The guard
`if *integration != "" return` is inverted relative to the claim (and to
`getRequirementsHandler`, which calls the Rodik API exactly when the flag
is set). -/
theorem C4_integration_mode_sends_no_patch :
    (runTestsHandler "rodik" c4State c4Req).state.testReports =
      [{ id := 1, projectId := 2, testPlanId := 4, testSuiteId := 3
       , passedPercent := 100, duration := 30 }] ∧
    (runTestsHandler "rodik" c4State c4Req).outbound = [] ∧
    (runTestsHandler "" c4State c4Req).outbound =
      [{ method := "PATCH", url := "http://localhost:8080/api/tests"
       , authHeader := "Bearer tms", body := [{ id := "5", status := "PASSED" }] }] := by
  refine ⟨by decide, by decide, by decide⟩

/-! ## Claim C5 -/

/-- Fixture for C5: server state whose `test_case_suites` table puts test
case 5 in suite 3. -/
def c5State : RunState := { testReports := [], nextReportId := 1, testCaseSuites := [(5, 3)] }

/-- Fixture for C5: the decoded run-tests body targeting suite 3. -/
def c5Req : RunRequest := { projectId := 2, testPlanId := 4, testSuiteId := 3 }

/-- Counterexample to C5: in non-integration mode the newer run-tests
handler does NOT assign timestamp-dependent outcomes — it marks the suite's
test case "PASSED" (a function of nothing: `runTestsHandler` takes no clock
input), while the timestamp-parity rule the claim describes (which lives in
the old variant's `runTestCases`) would demand "failed" at an even Unix
second such as 1000. -/
theorem C5_new_run_is_not_timestamp_coin_flip :
    (runTestsHandler "" c5State c5Req).outbound.map (fun r => r.body.map (fun b => b.status)) =
      [["PASSED"]] ∧
    oldRunStatus 1000 = "failed" ∧
    ("PASSED" : String) ≠ "failed" ∧ ("PASSED" : String) ≠ "passed" := by
  refine ⟨by decide, by decide, by decide, by decide⟩

/-- Claim C5 as amended: in non-integration mode the newer run-tests handler
creates the TestReport row with hardcoded `passed_percent = 100` and
`duration = 30`, then iterates the test cases under the given suite marking
every one "PASSED" unconditionally in the outbound PATCH; the
pseudo-random pass/fail outcome from the low bit of the current Unix
timestamp exists only in the old variant's `runTestCases`, which creates no
report row and takes an explicit list of test-case ids. -/
theorem C5_run_tests_statuses
    (st : RunState) (data : RunRequest)
    (db : UDB) (now : Int) (ids : List Nat) (results : List OldRunResult) :
    ((runTestsHandler "" st data).state.testReports =
        st.testReports ++
          [{ id := st.nextReportId, projectId := data.projectId
           , testPlanId := data.testPlanId, testSuiteId := data.testSuiteId
           , passedPercent := 100, duration := 30 }]) ∧
    (∀ pr ∈ (runTestsHandler "" st data).outbound, ∀ r ∈ pr.body, r.status = "PASSED") ∧
    ((runTestsHandler "" st data).outbound.length = 1) ∧
    (oldRunTestCases db now ids = .ok results →
        ∀ r ∈ results, r.status = if now % 2 = 0 then "failed" else "passed") := by
  refine ⟨rfl, ?_, rfl, ?_⟩
  · intro pr hpr r hr
    have hout : (runTestsHandler "" st data).outbound =
        [{ method := "PATCH", url := rodikAPI ++ "/tests", authHeader := "Bearer tms"
         , body := ((st.testCaseSuites.filter (fun q => q.2 == data.testSuiteId)).map
             (fun q => q.1)).map
             (fun cid => { id := toString cid, status := "PASSED" }) }] := rfl
    rw [hout] at hpr
    simp only [List.mem_singleton] at hpr
    subst hpr
    simp only [List.mem_map] at hr
    obtain ⟨cid, _, hc⟩ := hr
    rw [← hc]
  · intro hok r hr
    by_cases hids : ids.isEmpty
    · simp [oldRunTestCases, hids] at hok
    · simp [oldRunTestCases, hids] at hok
      rw [← hok] at hr
      simp only [List.mem_map] at hr
      obtain ⟨tc, _, hc⟩ := hr
      rw [← hc]
      simp [oldRunStatus]

/-- Witness for C5 (amended) at concrete inputs: one suite member is marked
"PASSED" by the newer handler regardless of time, and the old variant's
results at the odd second 1001 carry "passed". -/
theorem C5_run_tests_statuses_witness :
    (runTestsHandler "" { testReports := [], nextReportId := 1, testCaseSuites := [(9, 4)] }
        { projectId := 1, testPlanId := 0, testSuiteId := 4 }).state.testReports =
      [{ id := 1, projectId := 1, testPlanId := 0, testSuiteId := 4
       , passedPercent := 100, duration := 30 }] ∧
    (∀ r ∈ [{ testCaseId := 100, status := oldRunStatus 1001, runTime := 1001 : OldRunResult }],
        r.status = if (1001 : Int) % 2 = 0 then "failed" else "passed") := by
  constructor
  · have h := (C5_run_tests_statuses
      { testReports := [], nextReportId := 1, testCaseSuites := [(9, 4)] }
      { projectId := 1, testPlanId := 0, testSuiteId := 4 }
      c1UDB 1001 [100] []).1
    simpa using h
  · exact (C5_run_tests_statuses
      { testReports := [], nextReportId := 1, testCaseSuites := [(9, 4)] }
      { projectId := 1, testPlanId := 0, testSuiteId := 4 }
      { projects := [], entities := []
      , testCases := [{ id := 100, name := "t", description := "", jsonData := ""
                      , entityId := 10, projectId := 1, requirementId := "r" }] }
      1001 [100]
      [{ testCaseId := 100, status := oldRunStatus 1001, runTime := 1001 }]).2.2.2 (by decide)
